import Mathlib

/-!
Verification of the scroll-video-generator core (`src/server.js`).

The development shallowly embeds the code of `server.js`:
* `detectTransparentCutout` and its helpers mirror lines 176-331,
* the animation math (`totalFrames`, `scrollStep`, `frameY`, `cropTop`)
  mirrors lines 529-560,
* `performJobCleanup` mirrors lines 112-136 with filesystem outcomes
  abstracted into an environment,
* `renderFlow` mirrors the control flow of the `POST /render` handler
  (lines 359-688), tracking the response sent, the number of
  `performJobCleanup` invocations, and whether the session directory and
  the uploaded files still exist at the end.

JavaScript numbers are embedded as `Int`/`Rat` with `Math.floor`-style
division written as Euclidean division (which agrees with `Math.floor` of
the exact quotient for positive divisors), and `Math.round x` as
`Int.floor (x + 1/2)`.
-/

set_option maxRecDepth 40000

namespace ScrollVideo

/-- A decoded raster image as `sharp` presents it to the detector: metadata
plus the raw byte buffer (`data` maps a byte index to the byte value; reads
outside the real buffer are modelled by whatever the function returns, and
never occur on the in-bounds accesses the code performs). -/
structure Image where
  width : Nat
  height : Nat
  channels : Nat
  data : Nat → Nat

/-- `isTransparent` of `server.js` (lines 193-196): a pixel is fully
transparent iff the alpha byte at `(y * width + x) * channels + 3` is
exactly `0`.  A negative index reads `undefined` in JavaScript, which is
not `=== 0`. -/
def isTransparent (img : Image) (x y : Int) : Bool :=
  let idx : Int := (y * (img.width : Int) + x) * (img.channels : Int) + 3
  if 0 ≤ idx then img.data idx.toNat == 0 else false

/-- The four running extrema of the transparent-pixel scan
(lines 200-210): `minX` starts at `width`, `maxX` at `-1`, `minY` at
`height`, `maxY` at `-1`. -/
structure BBox where
  minX : Int
  maxX : Int
  minY : Int
  maxY : Int
deriving DecidableEq, Repr

/-- Initial scan state (line 200). -/
def bboxInit (img : Image) : BBox :=
  ⟨(img.width : Int), -1, (img.height : Int), -1⟩

/-- One iteration of the inner `for (x …)` loop of the scan
(lines 202-209). -/
def scanStep (img : Image) (y : Nat) (s : BBox) (x : Nat) : BBox :=
  if isTransparent img x y then
    ⟨min s.minX x, max s.maxX x, min s.minY y, max s.maxY y⟩
  else s

/-- One iteration of the outer `for (y …)` loop of the scan
(lines 201-210). -/
def scanRow (img : Image) (s : BBox) (y : Nat) : BBox :=
  (List.range img.width).foldl (scanStep img y) s

/-- The full-image scan for the bounding box of all fully transparent
pixels (lines 200-210). -/
def scanBBox (img : Image) : BBox :=
  (List.range img.height).foldl (scanRow img) (bboxInit img)

/-- The rectangular/rounded classification (lines 224-235): the frame is
rectangular iff all four corners of the bounding box are fully
transparent. -/
def cornersTransparent (img : Image) (s : BBox) : Bool :=
  isTransparent img s.minX s.minY && isTransparent img s.maxX s.minY &&
  isTransparent img s.minX s.maxY && isTransparent img s.maxX s.maxY

/-- `w % 2 === 0 ? w : w - 1` (lines 242-243, 316-317): truncate a
dimension down to the nearest even number. -/
def evenize (w : Int) : Int :=
  if w % 2 == 0 then w else w - 1

/-- Top and bottom edges of `isRectangleValid` (lines 262-266): every pixel
of both horizontal edges must be fully transparent. -/
def edgesHorizontal (img : Image) (x y w h : Int) : Bool :=
  (List.range w.toNat).all fun i =>
    isTransparent img (x + i) y && isTransparent img (x + i) (y + h - 1)

/-- Left and right edges of `isRectangleValid` (lines 269-273): every pixel
of both vertical edges must be fully transparent. -/
def edgesVertical (img : Image) (x y w h : Int) : Bool :=
  (List.range h.toNat).all fun i =>
    isTransparent img x (y + i) && isTransparent img (x + w - 1) (y + i)

/-- `isRectangleValid` (lines 259-276): a candidate rectangle is valid iff
its entire perimeter consists of fully transparent pixels. -/
def isRectangleValid (img : Image) (x y w h : Int) : Bool :=
  edgesHorizontal img x y w h && edgesVertical img x y w h

/-- The candidate percentages tested for rounded frames (line 288),
written as integer percentages: `[0.5, 0.55, …, 0.95]`. -/
def testPercentages : List Int :=
  [50, 55, 60, 65, 70, 75, 80, 85, 90, 95]

/-- The running best rectangle of the rounded-corner search
(lines 279-282); it starts as `(minX, minY, 0, 0)`. -/
structure Best where
  bestX : Int
  bestY : Int
  bestW : Int
  bestH : Int
deriving DecidableEq, Repr

/-- The candidate rectangle for percentage `p` (lines 291-294):
`floor(bounding * p)` for each dimension, centred on the centroid of the
bounding box.  Euclidean division by the positive constants `100` and `2`
coincides with `Math.floor` of the exact quotient. -/
def candRect (s : BBox) (p : Int) : Best :=
  let bw := s.maxX - s.minX + 1
  let bh := s.maxY - s.minY + 1
  let cX := (s.minX + s.maxX) / 2
  let cY := (s.minY + s.maxY) / 2
  let tw := bw * p / 100
  let th := bh * p / 100
  ⟨cX - tw / 2, cY - th / 2, tw, th⟩

/-- The bounds check of lines 297-298: the candidate must lie inside the
bounding box of the transparent area. -/
def candInBounds (s : BBox) (c : Best) : Bool :=
  s.minX ≤ c.bestX && s.minY ≤ c.bestY &&
  c.bestX + c.bestW ≤ s.maxX + 1 && c.bestY + c.bestH ≤ s.maxY + 1

/-- The `for (const pct of testPercentages)` loop of lines 290-313: an
out-of-bounds candidate is skipped; an in-bounds valid candidate replaces
the best and the search continues; an in-bounds invalid candidate stops the
search (`break`). -/
def roundedLoop (img : Image) (s : BBox) : List Int → Best → Best
  | [], b => b
  | p :: rest, b =>
    let c := candRect s p
    if candInBounds s c then
      if isRectangleValid img c.bestX c.bestY c.bestW c.bestH then
        roundedLoop img s rest c
      else b
    else roundedLoop img s rest b

/-- The error message produced when the frame lacks an alpha channel
(line 182), wrapped by the `catch` of lines 328-330. -/
def noAlphaMsg : String :=
  "Failed to detect transparent cutout: Frame image must have an alpha channel (RGBA)"

/-- The detected cutout rectangle `{x, y, width, height}`. -/
structure Rect where
  x : Int
  y : Int
  width : Int
  height : Int
deriving DecidableEq, Repr

/-- `detectTransparentCutout` (lines 176-331).  A frame with fewer than 4
channels throws, which the surrounding `catch` re-raises with a wrapped
message; we embed the throw as `Except.error`.  Otherwise: scan for the
bounding box of fully transparent pixels; if none, return the zero rect;
if all four corners of the box are transparent return the box with even
dimensions; otherwise run the rounded-corner percentage search and return
its best rectangle with even dimensions. -/
def detectTransparentCutout (img : Image) : Except String Rect :=
  if img.channels < 4 then .error noAlphaMsg
  else
    let s := scanBBox img
    if s.maxX = -1 then .ok ⟨0, 0, 0, 0⟩
    else
      let bw := s.maxX - s.minX + 1
      let bh := s.maxY - s.minY + 1
      if cornersTransparent img s then
        .ok ⟨s.minX, s.minY, evenize bw, evenize bh⟩
      else
        let r := roundedLoop img s testPercentages ⟨s.minX, s.minY, 0, 0⟩
        .ok ⟨r.bestX, r.bestY, evenize r.bestW, evenize r.bestH⟩

/-! ### Request parameters (lines 438-439) -/

/-- A value read from `req.body`: absent, a non-numeric string (which
`Number(·)` turns into `NaN`), or a finite number. -/
inductive JSVal where
  | absent
  | nan
  | num (q : ℚ)
deriving DecidableEq

/-- `Number(v) || dflt`: `NaN` and `0` are falsy in JavaScript, so an
absent field, a non-numeric field, and an explicit `0` all yield the
default. -/
def numOr (v : JSVal) (dflt : ℚ) : ℚ :=
  match v with
  | .num q => if q = 0 then dflt else q
  | _ => dflt

/-- `Math.max(1, Number(req.body.duration) || 8)` (line 438). -/
def effDuration (v : JSVal) : ℚ := max 1 (numOr v 8)

/-- `Math.max(12, Number(req.body.fps) || 30)` (line 439). -/
def effFps (v : JSVal) : ℚ := max 12 (numOr v 30)

/-! ### Animation math (lines 529-560) -/

/-- `Math.round x` in JavaScript: half-up rounding, `⌊x + 1/2⌋`. -/
def jsRound (q : ℚ) : Int := ⌊q + 1 / 2⌋

/-- `const totalFrames = Math.round(duration * fps)` (line 529). -/
def totalFrames (duration fps : ℚ) : Int := jsRound (duration * fps)

/-- `const maxScroll = Math.max(0, pageHeight - screenHeight)`
(line 530). -/
def maxScroll (pageHeight screenHeight : Int) : Int :=
  max 0 (pageHeight - screenHeight)

/-- `const step = totalFrames > 1 ? (endY - startY) / (totalFrames - 1) : 0`
(lines 531-533), with `startY = 0` and `endY = maxScroll`. -/
def scrollStep (duration fps : ℚ) (pageHeight screenHeight : Int) : ℚ :=
  let tf := totalFrames duration fps
  if 1 < tf then ((maxScroll pageHeight screenHeight : ℚ) - 0) / ((tf : ℚ) - 1)
  else 0

/-- `const y = Math.round(startY + step * i)` (line 549). -/
def frameY (duration fps : ℚ) (pageHeight screenHeight : Int) (i : ℕ) : Int :=
  jsRound (0 + scrollStep duration fps pageHeight screenHeight * i)

/-- `top: Math.max(0, Math.min(y, pageHeight - screenHeight))` of the
`extract` call (line 555). -/
def cropTop (duration fps : ℚ) (pageHeight screenHeight : Int) (i : ℕ) : Int :=
  max 0 (min (frameY duration fps pageHeight screenHeight i)
             (pageHeight - screenHeight))

/-- Everything frame `i`'s composite depends on besides the (fixed) page
and frame images: the crop window and the composite offsets
(lines 552-580).  Two indices with equal descriptors produce byte-identical
frames. -/
def frameDescriptor (duration fps : ℚ)
    (pageHeight screenHeight screenWidth offX offY : Int) (i : ℕ) :
    Int × Int × Int × Int × Int :=
  (cropTop duration fps pageHeight screenHeight i,
   screenWidth, screenHeight, offX, offY)

/-- The indices generated by the batched frame loop (lines 543-595):
windows of `BATCH_SIZE = 4` consecutive indices, each window completed
before the next begins. -/
def batchIndices (total : ℕ) (batchStart : ℕ) : List ℕ :=
  if _h : batchStart < total then
    List.range' batchStart (min (batchStart + 4) total - batchStart) ++
      batchIndices total (batchStart + 4)
  else []
termination_by total - batchStart
decreasing_by omega

/-- The full emitted index sequence: the loop starts at `batchStart = 0`. -/
def emittedIndices (total : ℕ) : List ℕ := batchIndices total 0

/-! ### Job cleanup (lines 112-136) -/

/-- Outcomes of the filesystem calls cleanup makes: whether
`rimraf(sessionDir)` rejects, and which `fs.unlink` calls reject. -/
structure FsEnv where
  rimrafFails : Bool
  unlinkFails : String → Bool

/-- The data `performJobCleanup` receives: the session directory (absent
when cleanup runs before it was assigned) and the uploaded files'
paths. -/
structure CleanupData where
  sessionDir : Option String
  uploadedFiles : List String

/-- A raw `fs.unlink(path)` call. -/
def unlinkStep (env : FsEnv) (p : String) : Except Unit Unit :=
  if env.unlinkFails p then .error () else .ok ()

/-- `fs.unlink(file.path).catch(() => {})` (line 127): any rejection is
swallowed. -/
def unlinkCaught (env : FsEnv) (p : String) : Except Unit Unit :=
  match unlinkStep env p with
  | .ok u => .ok u
  | .error _ => .ok ()

/-- The `for (const file of uploadedFiles)` loop (lines 125-128),
returning the paths whose unlink was attempted in order. -/
def unlinkLoop (env : FsEnv) : List String → Except Unit (List String)
  | [] => .ok []
  | p :: rest =>
    match unlinkCaught env p with
    | .error e => .error e
    | .ok _ =>
      match unlinkLoop env rest with
      | .error e => .error e
      | .ok l => .ok (p :: l)

/-- The `try` block of `performJobCleanup` (lines 115-131): remove the
session directory if there is one (a rejection here throws), then attempt
each unlink; on success the function returns `true` together with the
attempted paths. -/
def cleanupTry (env : FsEnv) (d : CleanupData) :
    Except Unit (Bool × List String) :=
  match (match d.sessionDir with
         | some _ => if env.rimrafFails then Except.error () else Except.ok ()
         | none => Except.ok ()) with
  | .error e => .error e
  | .ok _ =>
    match unlinkLoop env d.uploadedFiles with
    | .error e => .error e
    | .ok l => .ok (true, l)

/-- `performJobCleanup` (lines 112-136): the whole body is wrapped in
`try/catch`; the `catch` logs and returns `false`, so the caller never
sees an exception.  The second component records which uploaded files had
an unlink attempted. -/
def performJobCleanup (env : FsEnv) (d : CleanupData) :
    Except Unit (Bool × List String) :=
  match cleanupTry env d with
  | .ok r => .ok r
  | .error _ => .ok (false, [])

/-! ### The `POST /render` handler (lines 359-688) -/

/-- `MAX_DIMENSION` (line 43). -/
def MAX_DIMENSION : Int := 4096

/-- The error payloads the handler can send (lines 372-373, 450-453,
470-472, 523-525, 681-686). -/
inductive ErrPayload where
  | missingPage
  | dimTooLarge (limit w h : Int)
  | noCutout
  | detectFailed (msg : String)
  | renderFailed
deriving DecidableEq

/-- A response: the video stream or a JSON error with its status code. -/
inductive Resp where
  | video
  | err (status : ℕ) (payload : ErrPayload)
deriving DecidableEq

/-- One `POST /render` request together with the external events that
steer the job: when the cancellation flag is observed set, and whether the
FFmpeg invocation fails. -/
structure RenderReq where
  hasPage : Bool
  pageW : Int
  pageH : Int
  frameImg : Image
  duration : JSVal
  fps : JSVal
  cancelPostDetect : Bool
  cancelDuringBatches : Bool
  cancelPreEncode : Bool
  ffmpegFails : Bool

/-- What is observable once the job reaches a terminal state: the response
sent (`none` when cancelled), how many times `performJobCleanup` ran, and
whether the session directory and the uploaded files still exist. -/
structure RenderOutcome where
  response : Option Resp
  cleanups : ℕ
  sessionDirExists : Bool
  uploadedFilesExist : Bool
deriving DecidableEq

/-- The control flow of the `POST /render` handler (lines 359-688).

* missing page (lines 372-374): immediate 400, no session directory yet;
* the session directory is created (line 442) before the page metadata is
  validated (lines 449-454), so an oversize page leaves the directory and
  the uploads behind — the 400 returns at lines 450, 470 and 523 do not
  call `performJobCleanup`, and the disconnect/timeout handlers
  (lines 402-417) are guarded by `!res.headersSent`;
* a cancellation observed at one of the cooperative checkpoints
  (lines 476-479, 591-594, 598-601) means the disconnect/timeout handler
  already ran cleanup once and no response is sent;
* an FFmpeg failure reaches the outer `catch` (lines 653-687), which runs
  cleanup once and sends a 500;
* successful delivery runs cleanup once from the `finish` handler
  (lines 626-631). -/
def renderFlow (req : RenderReq) : RenderOutcome :=
  if ¬req.hasPage then
    ⟨some (.err 400 .missingPage), 0, false, true⟩
  else
    if req.pageW > MAX_DIMENSION ∨ req.pageH > MAX_DIMENSION then
      ⟨some (.err 400 (.dimTooLarge MAX_DIMENSION req.pageW req.pageH)),
        0, true, true⟩
    else
      match detectTransparentCutout req.frameImg with
      | .error msg => ⟨some (.err 400 (.detectFailed msg)), 0, true, true⟩
      | .ok cut =>
        if cut.width = 0 ∨ cut.height = 0 then
          ⟨some (.err 400 .noCutout), 0, true, true⟩
        else if req.cancelPostDetect then ⟨none, 1, false, false⟩
        else if req.cancelDuringBatches then ⟨none, 1, false, false⟩
        else if req.cancelPreEncode then ⟨none, 1, false, false⟩
        else if req.ffmpegFails then
          ⟨some (.err 500 .renderFailed), 1, false, false⟩
        else ⟨some .video, 1, false, false⟩

/-! ### Spec-side formulations (for refinement comparisons)

These two definitions follow the wording of the specification, not the
code; theorems compare them with the code-derived definitions above. -/

/-- Modelled from the spec: "`step = (scrollRange-0)/(totalFrames-1)` if
totalFrames>1 else 0; `y_i = round(step*i)`". -/
def specScrollY (scrollRange tf : Int) (i : ℕ) : Int :=
  jsRound ((if 1 < tf then (scrollRange : ℚ) / ((tf : ℚ) - 1) else 0) * i)

/-- Modelled from the spec: "clamped to `[lo, hi]`" — the usual
mathematical clamp of a value into an interval. -/
def clampSpec (lo hi v : Int) : Int := min (max v lo) hi

/-! ### Concrete images and requests used as witnesses -/

/-- An RGBA image whose alpha channel is given by the predicate `t`
(`0` where `t` holds, `255` elsewhere); all colour bytes are `255`. -/
def alphaImage (w h : ℕ) (t : ℕ → ℕ → Bool) : Image :=
  ⟨w, h, 4, fun i =>
    if i % 4 == 3 then
      (let p := i / 4
       if t (p % w) (p / w) then 0 else 255)
    else 255⟩

/-- A frame whose fully transparent pixels are exactly the rectangle
`[a, b] × [c, d]`. -/
def rectFrame (w h a b c d : ℕ) : Image :=
  alphaImage w h (fun x y => a ≤ x && x ≤ b && c ≤ y && y ≤ d)

/-- A 20×20 rounded-style frame: the transparent area is the square
`[4, 14]²` plus one transparent pixel in the middle of each side of the
20×20 bounding box, so the box spans the whole image but its corners are
opaque.  The 50% and 55% candidate rectangles lie inside `[4, 14]²` and
validate; the 60% candidate touches the opaque pixel `(3, 3)` and
fails. -/
def roundedFrameA : Image :=
  alphaImage 20 20 (fun x y =>
    (4 ≤ x && x ≤ 14 && 4 ≤ y && y ≤ 14) ||
    (x == 0 && y == 10) || (x == 19 && y == 10) ||
    (x == 10 && y == 0) || (x == 10 && y == 19))

/-- A 14×14 frame whose only transparent pixels are the four midpoints of
the sides of the box `[2, 11]²`: the box corners are opaque (ROUNDED) and
no candidate rectangle validates. -/
def roundedFrameB : Image :=
  alphaImage 14 14 (fun x y =>
    (x == 2 && y == 7) || (x == 11 && y == 7) ||
    (x == 7 && y == 2) || (x == 7 && y == 11))

/-- A fully opaque RGBA frame that is wider than `MAX_DIMENSION`. -/
def wideOpaqueFrame : Image := alphaImage 4097 1 (fun _ _ => false)

/-- A request whose page exceeds `MAX_DIMENSION` in width. -/
def reqOversizePage : RenderReq :=
  ⟨true, 4097, 100, rectFrame 8 8 2 5 2 5, .absent, .absent,
    false, false, false, false⟩

/-- A request whose frame lacks an alpha channel (3-channel buffer). -/
def reqNoAlphaFrame : RenderReq :=
  ⟨true, 100, 200, ⟨5, 5, 3, fun _ => 0⟩, .absent, .absent,
    false, false, false, false⟩

/-- A request whose frame has an alpha channel but no transparent pixel at
all, so detection yields the zero-area rectangle. -/
def reqZeroAreaCutout : RenderReq :=
  ⟨true, 100, 200, alphaImage 6 6 (fun _ _ => false), .absent, .absent,
    false, false, false, false⟩

/-- A request whose page is within limits but whose frame is 4097 pixels
wide — beyond `MAX_DIMENSION`. -/
def reqOversizeFrame : RenderReq :=
  ⟨true, 100, 200, wideOpaqueFrame, .absent, .absent,
    false, false, false, false⟩

/-! ## Theorems -/

theorem isTransparent_wideOpaqueFrame (x y : Int) :
    isTransparent wideOpaqueFrame x y = false := by
  unfold isTransparent wideOpaqueFrame alphaImage
  simp only []
  split
  · split <;> rfl
  · rfl

theorem scanRow_opaque (img : Image)
    (h : ∀ x y : Int, isTransparent img x y = false) (s : BBox) (y : ℕ) :
    scanRow img s y = s := by
  unfold scanRow
  generalize List.range img.width = l
  induction l generalizing s with
  | nil => rfl
  | cons a l ih => simp [List.foldl_cons, scanStep, h, ih]

theorem scanBBox_opaque (img : Image)
    (h : ∀ x y : Int, isTransparent img x y = false) :
    scanBBox img = bboxInit img := by
  unfold scanBBox
  generalize List.range img.height = l
  induction l with
  | nil => rfl
  | cons a l ih => simp [List.foldl_cons, scanRow_opaque img h, ih]

theorem detect_opaque (img : Image) (h4 : ¬img.channels < 4)
    (h : ∀ x y : Int, isTransparent img x y = false) :
    detectTransparentCutout img = .ok ⟨0, 0, 0, 0⟩ := by
  unfold detectTransparentCutout
  rw [if_neg h4, scanBBox_opaque img h]
  rfl

theorem unlinkCaught_ok (env : FsEnv) (p : String) :
    unlinkCaught env p = .ok () := by
  rcases h : unlinkStep env p with u | e <;> simp [unlinkCaught, h]

theorem unlinkLoop_ok (env : FsEnv) : ∀ l : List String,
    unlinkLoop env l = .ok l
  | [] => rfl
  | p :: rest => by
    simp [unlinkLoop, unlinkCaught_ok, unlinkLoop_ok env rest]

/-- **C7**: a frame whose decoded buffer has fewer than 4 channels makes
`detectTransparentCutout` fail with the (wrapped) missing-alpha-channel
error, and it never returns a rectangle. -/
theorem detect_no_alpha (img : Image) (h : img.channels < 4) :
    detectTransparentCutout img = .error noAlphaMsg ∧
      ∀ r : Rect, detectTransparentCutout img ≠ .ok r := by
  have he : detectTransparentCutout img = .error noAlphaMsg := by
    unfold detectTransparentCutout
    rw [if_pos h]
  exact ⟨he, fun r hr => by rw [he] at hr; cases hr⟩

/-- Witness for C7: a concrete 3-channel image. -/
theorem detect_no_alpha_witness :
    detectTransparentCutout ⟨5, 5, 3, fun _ => 0⟩ = .error noAlphaMsg :=
  (detect_no_alpha ⟨5, 5, 3, fun _ => 0⟩ (by decide)).1

/-- **C8** (amended): a supplied *nonzero* numeric duration `d` yields
`max(1, d)` and a supplied nonzero numeric fps `f` yields `max(12, f)`;
an absent, non-numeric (`NaN`) or zero value falls back to the defaults
`8` and `30` (because `Number(v) || dflt` treats `0` and `NaN` as falsy). -/
theorem effParams_amended (q : ℚ) (hq : q ≠ 0) :
    (effDuration (.num q) = max 1 q ∧ effFps (.num q) = max 12 q) ∧
    effDuration .absent = 8 ∧ effFps .absent = 30 ∧
    effDuration .nan = 8 ∧ effFps .nan = 30 ∧
    effDuration (.num 0) = 8 ∧ effFps (.num 0) = 30 := by
  refine ⟨⟨?_, ?_⟩, ?_, ?_, ?_, ?_, ?_, ?_⟩ <;>
    (simp [effDuration, effFps, numOr, hq]; try norm_num)

/-- Witness for C8's amended statement at `q = 5`. -/
theorem effParams_amended_witness :
    effDuration (.num 5) = max 1 5 ∧ effFps (.num 5) = max 12 5 :=
  (effParams_amended 5 (by norm_num)).1

/-- Counterexample to C8 as stated: a supplied numeric duration `0` does
not yield `max(1, 0) = 1` (it falls back to the default `8`), and a
supplied numeric fps `0` does not yield `max(12, 0) = 12`. -/
theorem effParams_zero_counterexample :
    effDuration (.num 0) ≠ max 1 (0 : ℚ) ∧
    effFps (.num 0) ≠ max 12 (0 : ℚ) := by decide

/-- **C9** (amended): `performJobCleanup` never propagates an error to its
caller; and whenever the removal of the working directory does not fail
(or there is no working directory), every originally uploaded file gets an
individual unlink attempt — for *every* pattern of unlink failures, since
each unlink's rejection is swallowed.  (When the directory removal throws,
the `catch` still swallows it, but the unlink loop is skipped.) -/
theorem performJobCleanup_amended (env : FsEnv) (d : CleanupData) :
    (∃ r, performJobCleanup env d = .ok r) ∧
    (env.rimrafFails = false →
      performJobCleanup env d = .ok (true, d.uploadedFiles)) ∧
    (d.sessionDir = none →
      performJobCleanup env d = .ok (true, d.uploadedFiles)) := by
  refine ⟨?_, ?_, ?_⟩
  · unfold performJobCleanup
    cases cleanupTry env d with
    | ok r => exact ⟨r, rfl⟩
    | error e => exact ⟨(false, []), rfl⟩
  · intro h
    unfold performJobCleanup cleanupTry
    cases hs : d.sessionDir <;> simp [h, unlinkLoop_ok]
  · intro h
    unfold performJobCleanup cleanupTry
    simp [h, unlinkLoop_ok]

/-- Witness for C9's amended statement: with a working directory whose
removal succeeds, both uploads are unlink-attempted even though every
unlink rejects. -/
theorem performJobCleanup_amended_witness :
    performJobCleanup ⟨false, fun _ => true⟩ ⟨some "dir", ["u1", "u2"]⟩ =
      .ok (true, ["u1", "u2"]) :=
  (performJobCleanup_amended ⟨false, fun _ => true⟩
    ⟨some "dir", ["u1", "u2"]⟩).2.1 rfl

/-- Counterexample to C9 as stated: when `rimraf` of the working directory
rejects, the uploaded file `"u1"` is *not* unlink-attempted — the `catch`
swallows the error (return value `false`) and the unlink loop never
runs. -/
theorem performJobCleanup_rimraf_counterexample :
    performJobCleanup ⟨true, fun _ => false⟩ ⟨some "dir", ["u1"]⟩ =
      .ok (false, []) := rfl

/-- **C1** (code bug): the three early `return res.status(400)` paths —
oversize page dimensions, a detection error, and a zero-area detected
cutout — reach a terminal FAILED state with **zero** cleanup invocations,
leaving the session directory (created at line 442, before the dimension
check) and the uploaded files on disk, contrary to the cleanup
invariant. -/
theorem renderFlow_early_rejection_leaks :
    renderFlow reqOversizePage =
      ⟨some (.err 400 (.dimTooLarge 4096 4097 100)), 0, true, true⟩ ∧
    renderFlow reqNoAlphaFrame =
      ⟨some (.err 400 (.detectFailed noAlphaMsg)), 0, true, true⟩ ∧
    renderFlow reqZeroAreaCutout =
      ⟨some (.err 400 .noCutout), 0, true, true⟩ := by
  refine ⟨by decide, by decide, by decide⟩

/-- **C2** (amended): the *page* dimensions are validated against
`MAX_DIMENSION` and an oversize page is rejected with a payload carrying
both the limit and the offending dimensions; the frame is never
dimension-checked. -/
theorem renderFlow_page_dim_check (req : RenderReq)
    (hp : req.hasPage = true)
    (hdim : MAX_DIMENSION < req.pageW ∨ MAX_DIMENSION < req.pageH) :
    renderFlow req =
      ⟨some (.err 400 (.dimTooLarge MAX_DIMENSION req.pageW req.pageH)),
        0, true, true⟩ := by
  unfold renderFlow
  rw [if_neg (by simp [hp]), if_pos hdim]

/-- Witness for C2's amended statement: a 100×4097 page is rejected with
the limit and its dimensions. -/
theorem renderFlow_page_dim_check_witness :
    renderFlow ⟨true, 100, 4097, rectFrame 8 8 2 5 2 5, .absent, .absent,
        false, false, false, false⟩ =
      ⟨some (.err 400 (.dimTooLarge 4096 100 4097)), 0, true, true⟩ :=
  renderFlow_page_dim_check _ rfl (Or.inr (by decide))

/-- Counterexample to C2 as stated: a request whose frame is 4097 pixels
wide (beyond the 4096 limit) is *not* rejected with a dimension error —
detection runs on the oversize frame and the request fails with the
unrelated no-cutout error. -/
theorem renderFlow_frame_dim_unchecked_counterexample :
    renderFlow reqOversizeFrame =
      ⟨some (.err 400 .noCutout), 0, true, true⟩ ∧
    reqOversizeFrame.frameImg.width = 4097 ∧ MAX_DIMENSION = 4096 := by
  refine ⟨?_, rfl, rfl⟩
  have hd : detectTransparentCutout reqOversizeFrame.frameImg =
      .ok ⟨0, 0, 0, 0⟩ :=
    detect_opaque _ (by decide) (fun x y => isTransparent_wideOpaqueFrame x y)
  unfold renderFlow
  rw [hd]
  decide

theorem batchIndices_eq (total : ℕ) : ∀ bs,
    batchIndices total bs = List.range' bs (total - bs) := by
  have key : ∀ fuel bs, total - bs ≤ fuel →
      batchIndices total bs = List.range' bs (total - bs) := by
    intro fuel
    induction fuel with
    | zero =>
      intro bs h
      rw [batchIndices, dif_neg (by omega)]
      have h0 : total - bs = 0 := by omega
      rw [h0]
      rfl
    | succ n ih =>
      intro bs h
      rw [batchIndices]
      by_cases hlt : bs < total
      · rw [dif_pos hlt, ih (bs + 4) (by omega)]
        rcases le_or_lt (bs + 4) total with h4 | h4
        · have hm : min (bs + 4) total - bs = 4 := by omega
          rw [hm, List.range'_append_1]
          congr 1
          omega
        · have hn : total - (bs + 4) = 0 := by omega
          rw [hn]
          have hz : List.range' (bs + 4) 0 = [] := rfl
          rw [hz, List.append_nil]
          congr 1
          omega
      · rw [dif_neg hlt]
        have h0 : total - bs = 0 := by omega
        rw [h0]
        rfl
  intro bs
  exact key (total - bs) bs le_rfl

/-- **C5**: with duration ≥ 1 and fps ≥ 12, the batched loop emits exactly
the indices `0, …, round(duration·fps) - 1`, in order and none skipped or
duplicated; for each index `i` the crop offset equals the spec's
`round(step·i)` clamped into `[0, pageHeight - cutoutHeight]` (the spec's
clamp and the code's `max 0 (min · (pageHeight - screenHeight))` agree
whenever the cutout fits the page); and for page height 3618, cutout
height 1744, duration 2 s, fps 10: totalFrames = 20, scrollRange = 1874
and step = 1874/19. -/
theorem animation_math_spec (duration fps : ℚ) (pH sH : Int) (i : ℕ)
    (_hd : 1 ≤ duration) (_hf : 12 ≤ fps) (hcut : sH ≤ pH) :
    (emittedIndices (totalFrames duration fps).toNat =
        List.range (totalFrames duration fps).toNat ∧
      (emittedIndices (totalFrames duration fps).toNat).length =
        (totalFrames duration fps).toNat) ∧
    cropTop duration fps pH sH i =
      clampSpec 0 (pH - sH)
        (specScrollY (maxScroll pH sH) (totalFrames duration fps) i) ∧
    (totalFrames 2 10 = 20 ∧ maxScroll 3618 1744 = 1874 ∧
      scrollStep 2 10 3618 1744 = 1874 / 19) := by
  refine ⟨⟨?_, ?_⟩, ?_, ?_, ?_, ?_⟩
  · rw [emittedIndices, batchIndices_eq, Nat.sub_zero, List.range_eq_range']
  · rw [emittedIndices, batchIndices_eq, Nat.sub_zero, List.length_range']
  · have hY : frameY duration fps pH sH i =
        specScrollY (maxScroll pH sH) (totalFrames duration fps) i := by
      unfold frameY specScrollY scrollStep
      norm_num
    unfold cropTop clampSpec
    rw [hY]
    omega
  · unfold totalFrames jsRound
    norm_num
  · unfold maxScroll
    norm_num
  · unfold scrollStep totalFrames maxScroll jsRound
    norm_num

/-- Witness for C5 at duration 2, fps 12, page height 3618, cutout height
1744, frame index 5. -/
theorem animation_math_spec_witness :
    cropTop 2 12 3618 1744 5 =
      clampSpec 0 (3618 - 1744)
        (specScrollY (maxScroll 3618 1744) (totalFrames 2 12) 5) :=
  (animation_math_spec 2 12 3618 1744 5 (by norm_num) (by norm_num)
    (by norm_num)).2.1

/-- **C6**: when the page is no taller than the cutout, the scroll range
is 0 and every frame's crop offset is 0, so all generated frames have the
same descriptor (and are therefore identical). -/
theorem zero_scroll_identical_frames (duration fps : ℚ)
    (pH sH w ox oy : Int) (i j : ℕ) (h : pH ≤ sH) :
    maxScroll pH sH = 0 ∧
    cropTop duration fps pH sH i = 0 ∧
    frameDescriptor duration fps pH sH w ox oy i =
      frameDescriptor duration fps pH sH w ox oy j := by
  have hms : maxScroll pH sH = 0 := by
    unfold maxScroll
    omega
  have hstep : scrollStep duration fps pH sH = 0 := by
    unfold scrollStep
    rw [hms]
    simp
  have hY : ∀ k : ℕ, frameY duration fps pH sH k = 0 := by
    intro k
    unfold frameY jsRound
    rw [hstep]
    norm_num
  have hct : ∀ k : ℕ, cropTop duration fps pH sH k = 0 := by
    intro k
    unfold cropTop
    rw [hY]
    omega
  exact ⟨hms, hct i, by unfold frameDescriptor; rw [hct i, hct j]⟩

/-- Witness for C6: page height 1000 below cutout height 1200. -/
theorem zero_scroll_identical_frames_witness :
    maxScroll 1000 1200 = 0 ∧
    cropTop 8 30 1000 1200 0 = 0 ∧
    frameDescriptor 8 30 1000 1200 400 10 20 0 =
      frameDescriptor 8 30 1000 1200 400 10 20 3 :=
  zero_scroll_identical_frames 8 30 1000 1200 400 10 20 0 3 (by norm_num)

theorem isRectangleValid_iff (im : Image) (x y w h : Int) :
    isRectangleValid im x y w h = true ↔
      (∀ i : ℕ, (i : Int) < w →
        isTransparent im (x + i) y = true ∧
        isTransparent im (x + i) (y + h - 1) = true) ∧
      (∀ i : ℕ, (i : Int) < h →
        isTransparent im x (y + i) = true ∧
        isTransparent im (x + w - 1) (y + i) = true) := by
  simp only [isRectangleValid, Bool.and_eq_true, edgesHorizontal,
    edgesVertical, List.all_eq_true, List.mem_range]
  constructor
  · rintro ⟨h1, h2⟩
    exact ⟨fun i hi => h1 i (by omega), fun i hi => h2 i (by omega)⟩
  · rintro ⟨h1, h2⟩
    exact ⟨fun i hi => h1 i (by omega), fun i hi => h2 i (by omega)⟩

/-- **C3**: the rounded-corner search tests the percentages
50, 55, …, 95 in strictly increasing order; a candidate is valid iff every
pixel of its full perimeter is fully transparent; and whenever the 50% and
55% candidates are in bounds and validate while the 60% candidate is in
bounds and fails, detection returns the 55% rectangle with its dimensions
truncated down to even. -/
theorem rounded_detection_spec (img : Image)
    (h4 : 4 ≤ img.channels)
    (hne : (scanBBox img).maxX ≠ -1)
    (hcorn : cornersTransparent img (scanBBox img) = false)
    (hb50 : candInBounds (scanBBox img) (candRect (scanBBox img) 50) = true)
    (hv50 : isRectangleValid img (candRect (scanBBox img) 50).bestX
      (candRect (scanBBox img) 50).bestY (candRect (scanBBox img) 50).bestW
      (candRect (scanBBox img) 50).bestH = true)
    (hb55 : candInBounds (scanBBox img) (candRect (scanBBox img) 55) = true)
    (hv55 : isRectangleValid img (candRect (scanBBox img) 55).bestX
      (candRect (scanBBox img) 55).bestY (candRect (scanBBox img) 55).bestW
      (candRect (scanBBox img) 55).bestH = true)
    (hb60 : candInBounds (scanBBox img) (candRect (scanBBox img) 60) = true)
    (hnv60 : isRectangleValid img (candRect (scanBBox img) 60).bestX
      (candRect (scanBBox img) 60).bestY (candRect (scanBBox img) 60).bestW
      (candRect (scanBBox img) 60).bestH = false) :
    detectTransparentCutout img =
      .ok ⟨(candRect (scanBBox img) 55).bestX,
           (candRect (scanBBox img) 55).bestY,
           evenize (candRect (scanBBox img) 55).bestW,
           evenize (candRect (scanBBox img) 55).bestH⟩ ∧
    testPercentages = [50, 55, 60, 65, 70, 75, 80, 85, 90, 95] ∧
    List.Chain' (· < ·) testPercentages ∧
    (∀ (im : Image) (x y w h : Int),
      isRectangleValid im x y w h = true ↔
        (∀ i : ℕ, (i : Int) < w →
          isTransparent im (x + i) y = true ∧
          isTransparent im (x + i) (y + h - 1) = true) ∧
        (∀ i : ℕ, (i : Int) < h →
          isTransparent im x (y + i) = true ∧
          isTransparent im (x + w - 1) (y + i) = true)) := by
  refine ⟨?_, rfl,
    by norm_num [testPercentages, List.chain'_cons, List.chain'_singleton],
    isRectangleValid_iff⟩
  unfold detectTransparentCutout
  rw [if_neg (by omega)]
  simp only [testPercentages, roundedLoop, hne, if_false, hcorn,
    Bool.false_eq_true, hb50, hv50, hb55, hv55, hb60, hnv60, if_true,
    ite_false, ite_true]

/-- Witness for C3: on `roundedFrameA` the 50% and 55% candidates
validate, the 60% candidate fails, and detection returns the 55%
square `(4, 4, 10, 10)` (the 55% candidate `11×11` truncated to even). -/
theorem rounded_detection_spec_witness :
    detectTransparentCutout roundedFrameA = .ok ⟨4, 4, 10, 10⟩ := by
  have h := rounded_detection_spec roundedFrameA (by decide) (by decide)
    (by decide) (by decide) (by decide) (by decide) (by decide) (by decide)
    (by decide)
  exact h.1.trans (congrArg Except.ok (by decide))

theorem roundedLoop_all_invalid (img : Image) (s : BBox) :
    ∀ (l : List Int) (b : Best),
      (∀ p ∈ l, candInBounds s (candRect s p) = true →
        isRectangleValid img (candRect s p).bestX (candRect s p).bestY
          (candRect s p).bestW (candRect s p).bestH = false) →
      roundedLoop img s l b = b := by
  intro l
  induction l with
  | nil => intro b _; rfl
  | cons p rest ih =>
    intro b hall
    rw [roundedLoop]
    by_cases hbnd : candInBounds s (candRect s p) = true
    · rw [if_pos hbnd, if_neg]
      rw [hall p (by simp) hbnd]
      simp
    · rw [if_neg hbnd]
      exact ih b fun q hq => hall q (by simp [hq])

/-- **C10**: in the rounded-corner search, a candidate whose centred
rectangle fails the bounds check is skipped without terminating the loop
(the `break` applies only to in-bounds candidates); and when no in-bounds
candidate validates, detection returns the zero-area rectangle positioned
at the bounding-box origin `(minX, minY, 0, 0)`. -/
theorem rounded_loop_skip_and_zero_area :
    (∀ (img : Image) (s : BBox) (p : Int) (rest : List Int) (b : Best),
      candInBounds s (candRect s p) = false →
      roundedLoop img s (p :: rest) b = roundedLoop img s rest b) ∧
    (∀ img : Image, 4 ≤ img.channels → (scanBBox img).maxX ≠ -1 →
      cornersTransparent img (scanBBox img) = false →
      (∀ p ∈ testPercentages,
        candInBounds (scanBBox img) (candRect (scanBBox img) p) = true →
        isRectangleValid img (candRect (scanBBox img) p).bestX
          (candRect (scanBBox img) p).bestY
          (candRect (scanBBox img) p).bestW
          (candRect (scanBBox img) p).bestH = false) →
      detectTransparentCutout img =
        .ok ⟨(scanBBox img).minX, (scanBBox img).minY, 0, 0⟩) := by
  constructor
  · intro img s p rest b hout
    rw [roundedLoop, if_neg]
    simp [hout]
  · intro img h4 hne hcorn hnone
    unfold detectTransparentCutout
    rw [if_neg (by omega)]
    simp only [hne, if_false, hcorn, Bool.false_eq_true, ite_false]
    rw [roundedLoop_all_invalid img (scanBBox img) testPercentages _ hnone]
    rfl

/-- Witness for C10: an out-of-bounds candidate (degenerate box) is
skipped, and on `roundedFrameB` (opaque box corners, no valid candidate)
detection returns `(2, 2, 0, 0)`. -/
theorem rounded_loop_skip_and_zero_area_witness :
    roundedLoop (alphaImage 1 1 fun _ _ => false) ⟨9, 0, 9, 0⟩ [50]
        ⟨0, 0, 0, 0⟩ =
      roundedLoop (alphaImage 1 1 fun _ _ => false) ⟨9, 0, 9, 0⟩ []
        ⟨0, 0, 0, 0⟩ ∧
    detectTransparentCutout roundedFrameB = .ok ⟨2, 2, 0, 0⟩ := by
  constructor
  · exact rounded_loop_skip_and_zero_area.1 _ _ _ _ _ (by decide)
  · exact (rounded_loop_skip_and_zero_area.2 roundedFrameB (by decide)
      (by decide) (by decide) (by decide)).trans
      (congrArg Except.ok (by decide))

theorem isTransparent_alphaImage (w h : ℕ) (t : ℕ → ℕ → Bool) (x y : ℕ)
    (hx : x < w) :
    isTransparent (alphaImage w h t) x y = t x y := by
  unfold isTransparent alphaImage
  dsimp only
  simp only [Nat.cast_ofNat]
  have hc : ((y : Int) * (w : Int) + (x : Int)) * 4 + 3 =
      (((y * w + x) * 4 + 3 : ℕ) : Int) := by push_cast; ring
  simp only [hc, Int.toNat_natCast]
  rw [if_pos (by positivity)]
  have hm : ((y * w + x) * 4 + 3) % 4 = 3 := by omega
  have hd : ((y * w + x) * 4 + 3) / 4 = y * w + x := by omega
  rw [hm, hd]
  have hmod : (y * w + x) % w = x := by
    rw [Nat.mul_comm, Nat.mul_add_mod, Nat.mod_eq_of_lt hx]
  have hdiv : (y * w + x) / w = y := by
    rw [Nat.mul_comm, Nat.mul_add_div (by omega), Nat.div_eq_of_lt hx,
      Nat.add_zero]
  rw [hmod, hdiv]
  simp only [beq_self_eq_true, if_true]
  cases htv : t x y <;> simp


theorem foldl_scanStep_skip (img : Image) (y : ℕ) :
    ∀ (l : List ℕ) (s : BBox),
      (∀ x ∈ l, isTransparent img x y = false) →
      l.foldl (scanStep img y) s = s
  | [], _, _ => rfl
  | x :: l, s, hl => by
    rw [List.foldl_cons]
    have hx : scanStep img y s x = s := by
      unfold scanStep
      rw [if_neg]
      simp [hl x (List.mem_cons_self x l)]
    rw [hx]
    exact foldl_scanStep_skip img y l s
      (fun z hz => hl z (List.mem_cons_of_mem _ hz))

theorem foldl_scanStep_run (img : Image) (y a : ℕ) :
    ∀ (k : ℕ) (s : BBox),
      (∀ i : ℕ, i ≤ k → isTransparent img (a + i) y = true) →
      (List.range' a (k + 1)).foldl (scanStep img y) s =
        ⟨min s.minX a, max s.maxX (a + k), min s.minY y, max s.maxY y⟩ := by
  intro k
  induction k with
  | zero =>
    intro s h
    have h0 := h 0 le_rfl
    show (List.range' a 1).foldl (scanStep img y) s = _
    rw [show List.range' a 1 = [a] from rfl]
    simp only [List.foldl_cons, List.foldl_nil, scanStep]
    rw [if_pos (by simpa using h0)]
    simp
  | succ k ih =>
    intro s h
    have hc : List.range' a (k + 1 + 1) = List.range' a (k + 1) ++ [a + (k + 1)] :=
      List.range'_1_concat a (k + 1)
    rw [hc, List.foldl_append, ih s (fun i hi => h i (by omega))]
    simp only [List.foldl_cons, List.foldl_nil, scanStep]
    rw [if_pos (by simpa using h (k + 1) le_rfl)]
    simp only [BBox.mk.injEq]
    refine ⟨?_, ?_, ?_, ?_⟩ <;> push_cast <;> omega


theorem scanRow_interval (img : Image) (y a b : ℕ) (s : BBox)
    (hab : a ≤ b) (hbw : b < img.width)
    (ht : ∀ x : ℕ, x < img.width →
      (isTransparent img x y = true ↔ a ≤ x ∧ x ≤ b)) :
    scanRow img s y =
      ⟨min s.minX a, max s.maxX b, min s.minY y, max s.maxY y⟩ := by
  have hfalse : ∀ x : ℕ, x < img.width → ¬(a ≤ x ∧ x ≤ b) →
      isTransparent img x y = false := by
    intro x hxw hno
    cases hx : isTransparent img x y
    · rfl
    · exact absurd ((ht x hxw).mp hx) hno
  have h1 : a + (b + 1 - a) = b + 1 := by omega
  have h2 : b + 1 + (img.width - (b + 1)) = img.width := by omega
  have e1 : List.range' 0 a ++ List.range' a (b + 1 - a) =
      List.range' 0 (b + 1) := by
    have e := List.range'_append_1 0 a (b + 1 - a)
    rw [Nat.zero_add] at e
    rw [e]
    congr 1
    omega
  have e2 : List.range' 0 (b + 1) ++
      List.range' (b + 1) (img.width - (b + 1)) =
      List.range' 0 img.width := by
    have e := List.range'_append_1 0 (b + 1) (img.width - (b + 1))
    rw [Nat.zero_add] at e
    rw [e]
    congr 1
    omega
  unfold scanRow
  rw [List.range_eq_range', ← e2, ← e1, List.foldl_append, List.foldl_append]
  have hpre : (List.range' 0 a).foldl (scanStep img y) s = s := by
    refine foldl_scanStep_skip img y _ s (fun x hx => ?_)
    obtain ⟨i, hi, rfl⟩ := List.mem_range'.mp hx
    exact hfalse _ (by omega) (by omega)
  rw [hpre]
  have h3 : b + 1 - a = (b - a) + 1 := by omega
  rw [h3, foldl_scanStep_run img y a (b - a) s
    (fun i hi => (ht (a + i) (by omega)).mpr ⟨by omega, by omega⟩)]
  have hpost : ∀ x ∈ List.range' (b + 1) (img.width - (b + 1)),
      isTransparent img x y = false := by
    intro x hx
    obtain ⟨i, hi, rfl⟩ := List.mem_range'.mp hx
    exact hfalse _ (by omega) (by omega)
  rw [foldl_scanStep_skip img y _ _ hpost]
  simp only [BBox.mk.injEq]
  simp only [true_and, and_true]
  omega

theorem scanRow_empty_all (img : Image) :
    ∀ (l : List ℕ) (s : BBox),
      (∀ y ∈ l, ∀ x : ℕ, x < img.width → isTransparent img x y = false) →
      l.foldl (scanRow img) s = s
  | [], _, _ => rfl
  | y :: l, s, h => by
    rw [List.foldl_cons]
    have h0 : scanRow img s y = s := by
      unfold scanRow
      exact foldl_scanStep_skip img y _ s
        (fun x hx => h y (List.mem_cons_self y l) x (List.mem_range.mp hx))
    rw [h0]
    exact scanRow_empty_all img l s (fun z hz => h z (List.mem_cons_of_mem _ hz))

theorem foldl_scanRow_run (img : Image) (a b c : ℕ)
    (hab : a ≤ b) (hbw : b < img.width) :
    ∀ (k : ℕ) (s : BBox),
      (∀ j : ℕ, j ≤ k → ∀ x : ℕ, x < img.width →
        (isTransparent img x (c + j) = true ↔ a ≤ x ∧ x ≤ b)) →
      (List.range' c (k + 1)).foldl (scanRow img) s =
        ⟨min s.minX a, max s.maxX b, min s.minY c, max s.maxY (c + k)⟩ := by
  intro k
  induction k with
  | zero =>
    intro s h
    show (List.range' c 1).foldl (scanRow img) s = _
    rw [show List.range' c 1 = [c] from rfl]
    simp only [List.foldl_cons, List.foldl_nil]
    rw [scanRow_interval img c a b s hab hbw (by simpa using h 0 le_rfl)]
    simp only [BBox.mk.injEq]
    push_cast
    simp only [true_and, and_true]
    omega
  | succ k ih =>
    intro s h
    rw [List.range'_1_concat, List.foldl_append,
      ih s (fun j hj => h j (by omega))]
    simp only [List.foldl_cons, List.foldl_nil]
    rw [scanRow_interval img (c + (k + 1)) a b _ hab hbw (h (k + 1) le_rfl)]
    simp only [BBox.mk.injEq]
    refine ⟨?_, ?_, ?_, ?_⟩ <;> push_cast <;> omega


theorem scanBBox_rectFrame (w h a b c d : ℕ)
    (hab : a ≤ b) (hbw : b < w) (hcd : c ≤ d) (hdh : d < h) :
    scanBBox (rectFrame w h a b c d) = ⟨a, b, c, d⟩ := by
  set img := rectFrame w h a b c d with himg
  have hwidth : img.width = w := rfl
  have htr : ∀ x y : ℕ, x < w →
      (isTransparent img x y = true ↔ (a ≤ x ∧ x ≤ b) ∧ (c ≤ y ∧ y ≤ d)) := by
    intro x y hx
    rw [himg]
    unfold rectFrame
    rw [isTransparent_alphaImage w h _ x y hx]
    simp only [Bool.and_eq_true, decide_eq_true_eq]
    tauto
  have hmid : ∀ y : ℕ, c ≤ y → y ≤ d → ∀ x : ℕ, x < img.width →
      (isTransparent img x y = true ↔ a ≤ x ∧ x ≤ b) := by
    intro y hcy hyd x hx
    rw [htr x y (hwidth ▸ hx)]
    constructor
    · exact fun hh => hh.1
    · exact fun hh => ⟨hh, hcy, hyd⟩
  have hout : ∀ y : ℕ, ¬(c ≤ y ∧ y ≤ d) → ∀ x : ℕ, x < img.width →
      isTransparent img x y = false := by
    intro y hy x hx
    cases hvx : isTransparent img x y
    · rfl
    · exact absurd ((htr x y (hwidth ▸ hx)).mp hvx).2 hy
  have e1 : List.range' 0 c ++ List.range' c ((d - c) + 1) =
      List.range' 0 (d + 1) := by
    have e := List.range'_append_1 0 c ((d - c) + 1)
    rw [Nat.zero_add] at e
    rw [e]
    congr 1
    omega
  have e2 : List.range' 0 (d + 1) ++
      List.range' (d + 1) (img.height - (d + 1)) =
      List.range' 0 img.height := by
    have e := List.range'_append_1 0 (d + 1) (img.height - (d + 1))
    rw [Nat.zero_add] at e
    rw [e]
    congr 1
    have hh : img.height = h := rfl
    rw [hh]
    omega
  unfold scanBBox
  rw [List.range_eq_range', ← e2, ← e1, List.foldl_append, List.foldl_append]
  rw [scanRow_empty_all img (List.range' 0 c) _ ?hpre]
  case hpre =>
    intro y hy x hx
    obtain ⟨i, hi, rfl⟩ := List.mem_range'.mp hy
    exact hout _ (by omega) x hx
  rw [foldl_scanRow_run img a b c hab (hwidth ▸ hbw) (d - c) _
    (fun j hj x hx => hmid (c + j) (by omega) (by omega) x hx)]
  rw [scanRow_empty_all img (List.range' (d + 1) (img.height - (d + 1))) _ ?hpost]
  case hpost =>
    intro y hy x hx
    obtain ⟨i, hi, rfl⟩ := List.mem_range'.mp hy
    exact hout _ (by omega) x hx
  have hbb : bboxInit img = ⟨(w : Int), -1, (h : Int), -1⟩ := rfl
  rw [hbb]
  simp only [BBox.mk.injEq]
  refine ⟨?_, ?_, ?_, ?_⟩ <;> omega

/-- **C4**: when all four corners of the bounding box of fully
transparent pixels are themselves fully transparent (RECTANGULAR
classification), detection returns exactly that bounding box: origin
unchanged, each dimension truncated down to even.  In particular any
818×1784 frame whose transparent box spans (19,20)-(799,1764) yields the
cutout (19, 20, 780, 1744). -/
theorem rectangular_detection_spec (img : Image)
    (h4 : 4 ≤ img.channels)
    (hne : (scanBBox img).maxX ≠ -1)
    (hcorn : cornersTransparent img (scanBBox img) = true) :
    detectTransparentCutout img =
      .ok ⟨(scanBBox img).minX, (scanBBox img).minY,
        evenize ((scanBBox img).maxX - (scanBBox img).minX + 1),
        evenize ((scanBBox img).maxY - (scanBBox img).minY + 1)⟩ ∧
    (img.width = 818 → img.height = 1784 →
      scanBBox img = ⟨19, 799, 20, 1764⟩ →
      detectTransparentCutout img = .ok ⟨19, 20, 780, 1744⟩) := by
  have main : detectTransparentCutout img =
      .ok ⟨(scanBBox img).minX, (scanBBox img).minY,
        evenize ((scanBBox img).maxX - (scanBBox img).minX + 1),
        evenize ((scanBBox img).maxY - (scanBBox img).minY + 1)⟩ := by
    unfold detectTransparentCutout
    rw [if_neg (by omega)]
    simp only [hne, if_false, hcorn, if_true, ite_true, ite_false]
  refine ⟨main, fun _ _ hs => ?_⟩
  rw [main, hs]
  rfl

theorem rectangular_detection_spec_witness :
    detectTransparentCutout (rectFrame 8 8 2 5 2 5) = .ok ⟨2, 2, 4, 4⟩ ∧
    detectTransparentCutout (rectFrame 818 1784 19 799 20 1764) =
      .ok ⟨19, 20, 780, 1744⟩ := by
  constructor
  · exact ((rectangular_detection_spec (rectFrame 8 8 2 5 2 5) (by decide)
      (by decide) (by decide)).1).trans (congrArg Except.ok (by decide))
  · have hsb := scanBBox_rectFrame 818 1784 19 799 20 1764 (by norm_num)
      (by norm_num) (by norm_num) (by norm_num)
    have hne : (scanBBox (rectFrame 818 1784 19 799 20 1764)).maxX ≠ -1 := by
      rw [hsb]
      decide
    have hcorn : cornersTransparent (rectFrame 818 1784 19 799 20 1764)
        (scanBBox (rectFrame 818 1784 19 799 20 1764)) = true := by
      rw [hsb]
      decide
    exact (rectangular_detection_spec _ (by decide) hne hcorn).2 rfl rfl hsb

end ScrollVideo

